import Mathlib

/-!
# Verification of the loan-track domain core

Shallow embedding of the domain calculations of the `loan-track` CLI:
the `LoanModel` derived-state rules (`calculateTotalWithInterest`,
`isOverdue`), the aggregation functions of `AnalyticsService`
(`generateOverviewAnalytics`, `generateLenderAnalysis`,
`generatePaymentTrends`, `generateRiskAssessment`) and the
`isValidDate` helper from `date.utils.ts`.

Modelling conventions:
* JavaScript numbers are modelled as `ℚ` (all claim-relevant arithmetic
  is exact decimal arithmetic; no claim hinges on binary floating point).
* Dates are modelled by their timestamps as `ℤ`: the source only ever
  compares `Date` values (`<`, `>=`), never inspects calendar fields,
  in the claim-relevant code. `new Date()` ("now") is threaded as an
  explicit `now : ℤ` parameter.
* Loan counts are `ℤ` (JS numbers holding integers; subtraction occurs).
* JavaScript `Map` (insertion-ordered) is modelled as an association
  list `List (String × _)` updated in place, appending new keys.
-/

namespace LoanTrack

/-- The `Loan` entity (`loan.interface.ts` / `LoanModel` fields):
`repaymentDate` is the parsed timestamp of the stored date string,
`interestRate` is the optional percentage. -/
structure Loan where
  id : String
  lenderName : String
  phoneNumber : String
  amount : ℚ
  repaymentDate : ℤ
  interestRate : Option ℚ
  isPaid : Bool
deriving DecidableEq, Repr

/-- `LoanModel.calculateTotalWithInterest` (loan.model.ts):
`if (this.interestRate) { return amount + amount*rate/100 } return amount`.
JS truthiness: a missing rate *and* a rate equal to `0` both skip the
interest branch. -/
def calculateTotalWithInterest (loan : Loan) : ℚ :=
  match loan.interestRate with
  | some r => if r ≠ 0 then loan.amount + loan.amount * r / 100 else loan.amount
  | none => loan.amount

/-- `LoanModel.isOverdue` (loan.model.ts):
`new Date(this.repaymentDate) < new Date() && !this.isPaid`,
with the current clock made an explicit parameter `now`. -/
def isOverdue (loan : Loan) (now : ℤ) : Bool :=
  decide (loan.repaymentDate < now) && !loan.isPaid

/-- Derived "Pending" predicate of the spec's status enumeration:
not paid and not overdue. -/
def isPending (loan : Loan) (now : ℤ) : Bool :=
  !loan.isPaid && !(isOverdue loan now)

/-- `OverviewAnalytics` (analytics.service.ts). -/
structure OverviewAnalytics where
  totalLoans : ℤ
  activeLoans : ℤ
  paidLoans : ℤ
  overdueLoans : ℤ
  pendingLoans : ℤ
  totalDebt : ℚ
  totalInterest : ℚ
  overdueAmount : ℚ
  paidAmount : ℚ
  pendingAmount : ℚ
  averageLoanAmount : ℚ
  smallestLoan : ℚ
  largestLoan : ℚ
  paymentRate : ℚ
deriving DecidableEq, Repr

/-- `Math.min(...list)` over a possibly empty list; the source guards the
empty case (`length > 0 ? ... : 0`), so the empty case is only a formal
placeholder here. -/
def minOfList : List ℚ → ℚ
  | [] => 0
  | x :: xs => xs.foldl min x

/-- `Math.max(...list)` over a possibly empty list, same guard remark as
`minOfList`. -/
def maxOfList : List ℚ → ℚ
  | [] => 0
  | x :: xs => xs.foldl max x

/-- `AnalyticsService.generateOverviewAnalytics` (analytics.service.ts,
lines 88–138), with `now` the clock read inside `loan.isOverdue()`. -/
def generateOverviewAnalytics (loans : List Loan) (now : ℤ) : OverviewAnalytics :=
  let totalLoans : ℤ := loans.length
  let paidLoans : ℤ := (loans.filter fun loan => loan.isPaid).length
  let overdueLoans : ℤ := (loans.filter fun loan => isOverdue loan now).length
  let activeLoans : ℤ := totalLoans - paidLoans
  let pendingLoans : ℤ := activeLoans - overdueLoans
  let totalDebt : ℚ :=
    loans.foldl (fun sum loan => sum + calculateTotalWithInterest loan) 0
  let totalInterest : ℚ :=
    loans.foldl (fun sum loan =>
      match loan.interestRate with
      | some r => if r ≠ 0 then sum + loan.amount * r / 100 else sum
      | none => sum) 0
  let overdueAmount : ℚ :=
    (loans.filter fun loan => isOverdue loan now).foldl
      (fun sum loan => sum + calculateTotalWithInterest loan) 0
  let paidAmount : ℚ :=
    (loans.filter fun loan => loan.isPaid).foldl
      (fun sum loan => sum + calculateTotalWithInterest loan) 0
  let pendingAmount : ℚ := totalDebt - paidAmount - overdueAmount
  let loanAmounts : List ℚ := loans.map calculateTotalWithInterest
  let averageLoanAmount : ℚ := if totalLoans > 0 then totalDebt / (totalLoans : ℚ) else 0
  let smallestLoan : ℚ := if loanAmounts.length > 0 then minOfList loanAmounts else 0
  let largestLoan : ℚ := if loanAmounts.length > 0 then maxOfList loanAmounts else 0
  let paymentRate : ℚ :=
    if totalLoans > 0 then ((paidLoans : ℚ) / (totalLoans : ℚ)) * 100 else 0
  { totalLoans := totalLoans
    activeLoans := activeLoans
    paidLoans := paidLoans
    overdueLoans := overdueLoans
    pendingLoans := pendingLoans
    totalDebt := totalDebt
    totalInterest := totalInterest
    overdueAmount := overdueAmount
    paidAmount := paidAmount
    pendingAmount := pendingAmount
    averageLoanAmount := averageLoanAmount
    smallestLoan := smallestLoan
    largestLoan := largestLoan
    paymentRate := paymentRate }

/-- C1: a loan with an absent or zero `interestRate` has
`calculateTotalWithInterest` equal to its `amount`; a loan with rate
`r > 0` has `calculateTotalWithInterest` equal to
`amount * (1 + r/100)` (i.e. `amount + amount*r/100`), exactly. -/
theorem totalWithInterest_spec (loan : Loan) :
    ((loan.interestRate = none ∨ loan.interestRate = some 0) →
      calculateTotalWithInterest loan = loan.amount) ∧
    (∀ r : ℚ, loan.interestRate = some r → 0 < r →
      calculateTotalWithInterest loan = loan.amount * (1 + r / 100)) := by
  constructor
  · rintro (h | h) <;> simp [calculateTotalWithInterest, h]
  · intro r hr hpos
    simp only [calculateTotalWithInterest, hr, ne_eq, hpos.ne', not_false_iff, if_true]
    ring

/-- Witness for C1: the spec's own example, amount 50000 at 10% gives
55000, and a no-interest paid loan keeps its amount. -/
theorem totalWithInterest_spec_witness :
    calculateTotalWithInterest ⟨"1", "A", "p", 50000, 0, some 10, false⟩ =
      50000 * (1 + 10 / 100) ∧
    calculateTotalWithInterest ⟨"2", "B", "p", 75000, 0, none, true⟩ = 75000 :=
  ⟨(totalWithInterest_spec _).2 10 rfl (by norm_num),
   (totalWithInterest_spec _).1 (Or.inl rfl)⟩

/-- C2: a paid loan is never overdue, for every evaluation time `now`
and every repayment date. -/
theorem paid_never_overdue (loan : Loan) (now : ℤ) (h : loan.isPaid = true) :
    isOverdue loan now = false := by
  simp [isOverdue, h]

/-- Witness for C2 at a concrete paid loan whose due date is long past. -/
theorem paid_never_overdue_witness :
    isOverdue ⟨"3", "C", "p", 100, -10000, some 5, true⟩ 99999 = false :=
  paid_never_overdue _ 99999 rfl

/-- C3: for every loan and evaluation time, exactly one of the three
derived statuses Paid / Overdue / Pending holds, and in the overview
statistics `paidLoans + overdueLoans + pendingLoans = totalLoans`. -/
theorem status_partition (loans : List Loan) (now : ℤ) :
    (∀ loan ∈ loans,
      (loan.isPaid = true ∧ isOverdue loan now = false ∧ isPending loan now = false) ∨
      (loan.isPaid = false ∧ isOverdue loan now = true ∧ isPending loan now = false) ∨
      (loan.isPaid = false ∧ isOverdue loan now = false ∧ isPending loan now = true)) ∧
    (generateOverviewAnalytics loans now).paidLoans +
        (generateOverviewAnalytics loans now).overdueLoans +
        (generateOverviewAnalytics loans now).pendingLoans =
      (generateOverviewAnalytics loans now).totalLoans := by
  constructor
  · intro loan _
    cases hp : loan.isPaid with
    | true => exact Or.inl ⟨rfl, by simp [isOverdue, hp], by simp [isPending, hp]⟩
    | false =>
      cases ho : isOverdue loan now with
      | true => exact Or.inr (Or.inl ⟨rfl, rfl, by simp [isPending, ho]⟩)
      | false => exact Or.inr (Or.inr ⟨rfl, rfl, by simp [isPending, hp, ho]⟩)
  · simp only [generateOverviewAnalytics]
    ring

/-- Witness for C3 at a concrete two-loan collection: the overdue unpaid
loan is in exactly the Overdue class, and the counts add up. -/
theorem status_partition_witness :
    ((⟨"1", "A", "p", 10, -1, none, false⟩ : Loan).isPaid = false ∧
      isOverdue ⟨"1", "A", "p", 10, -1, none, false⟩ 0 = true ∧
      isPending ⟨"1", "A", "p", 10, -1, none, false⟩ 0 = false) ∧
    (generateOverviewAnalytics
          [⟨"1", "A", "p", 10, -1, none, false⟩, ⟨"2", "B", "p", 20, 5, none, true⟩]
          0).paidLoans +
        (generateOverviewAnalytics
          [⟨"1", "A", "p", 10, -1, none, false⟩, ⟨"2", "B", "p", 20, 5, none, true⟩]
          0).overdueLoans +
        (generateOverviewAnalytics
          [⟨"1", "A", "p", 10, -1, none, false⟩, ⟨"2", "B", "p", 20, 5, none, true⟩]
          0).pendingLoans =
      (generateOverviewAnalytics
          [⟨"1", "A", "p", 10, -1, none, false⟩, ⟨"2", "B", "p", 20, 5, none, true⟩]
          0).totalLoans := by
  refine ⟨?_, (status_partition _ 0).2⟩
  have h := (status_partition
    [⟨"1", "A", "p", 10, -1, none, false⟩, ⟨"2", "B", "p", 20, 5, none, true⟩] 0).1
    ⟨"1", "A", "p", 10, -1, none, false⟩ (by simp)
  rcases h with h | h | h
  · exact absurd h.1 (by decide)
  · exact h
  · exact absurd h.2.1 (by decide)

/-- C4: the overview of the empty collection is all zeros; in particular
the `paidLoans / totalLoans` payment rate is the guarded value 0, not a
division by zero (the `ℚ` model has no NaN; the guard
`totalLoans > 0 ? ... : 0` is what this theorem evaluates). -/
theorem overview_empty (now : ℤ) :
    generateOverviewAnalytics [] now =
      ⟨0, 0, 0, 0, 0, 0, 0, 0, 0, 0, 0, 0, 0, 0⟩ := by
  simp [generateOverviewAnalytics, minOfList, maxOfList]

/-- The spec's end-to-end scenario, with `now = 0`: an unpaid 50000 loan
at 10% due yesterday, an unpaid 25000 loan at 5% due tomorrow, and a
paid 75000 loan with no interest due last month. -/
def scenarioLoans : List Loan :=
  [⟨"1", "A", "p", 50000, -1, some 10, false⟩,
   ⟨"2", "B", "p", 25000, 1, some 5, false⟩,
   ⟨"3", "C", "p", 75000, -30, none, true⟩]

/-- C5 counterexample: on the spec's scenario the returned payment rate
is not the claimed 33.3 — the code stores the exact quotient
`(1/3) * 100 = 100/3 = 33.333…`, unrounded. -/
theorem scenario_paymentRate_ne :
    (generateOverviewAnalytics scenarioLoans 0).paymentRate ≠ 333 / 10 := by
  norm_num [generateOverviewAnalytics, scenarioLoans, List.filter]

/-- C5 (amended): the scenario overview has totalLoans 3, paidLoans 1,
overdueLoans 1, pendingLoans 1, totalDebt 156250, paidAmount 75000,
overdueAmount 55000, pendingAmount 26250, and paymentRate exactly
`100/3` (33.33…%, which displays as 33.3% only after rounding to one
decimal). -/
theorem scenario_overview :
    generateOverviewAnalytics scenarioLoans 0 =
      ⟨3, 2, 1, 1, 1, 156250, 6250, 55000, 75000, 26250, 156250 / 3,
        26250, 75000, 100 / 3⟩ := by
  norm_num [generateOverviewAnalytics, scenarioLoans, List.filter, List.foldl,
    calculateTotalWithInterest, isOverdue, minOfList, maxOfList,
    OverviewAnalytics.mk.injEq]

/-- The `'Low' | 'Medium' | 'High'` risk label of `LenderAnalysis`. -/
inductive RiskLevel where
  | low
  | medium
  | high
deriving DecidableEq, Repr

/-- The per-lender accumulator of `generateLenderAnalysis`
(`{loans, totalAmount, paidLoans, overdueLoans}`). -/
structure LenderGroupData where
  loans : List Loan
  totalAmount : ℚ
  paidLoans : ℤ
  overdueLoans : ℤ
deriving DecidableEq, Repr

/-- The body of the grouping `forEach`: push the loan and bump the
lender's totals (`paid++` when paid, else `overdue++` when overdue). -/
def updateGroup (now : ℤ) (loan : Loan) (data : LenderGroupData) : LenderGroupData :=
  { loans := data.loans ++ [loan]
    totalAmount := data.totalAmount + calculateTotalWithInterest loan
    paidLoans := data.paidLoans + (if loan.isPaid then 1 else 0)
    overdueLoans :=
      data.overdueLoans + (if !loan.isPaid && isOverdue loan now then 1 else 0) }

/-- One `forEach` step over the insertion-ordered lender `Map`: set up a
fresh entry for an unseen lender, then update that lender's entry. -/
def addToLenderMap (now : ℤ) (m : List (String × LenderGroupData)) (loan : Loan) :
    List (String × LenderGroupData) :=
  if m.any (fun e => e.1 == loan.lenderName) then
    m.map (fun e =>
      if e.1 == loan.lenderName then (e.1, updateGroup now loan e.2) else e)
  else
    m ++ [(loan.lenderName, updateGroup now loan ⟨[], 0, 0, 0⟩)]

/-- The grouping pass of `generateLenderAnalysis` (exact, case-sensitive
`lenderName` match). -/
def groupLoansByLender (loans : List Loan) (now : ℤ) :
    List (String × LenderGroupData) :=
  loans.foldl (addToLenderMap now) []

/-- `LenderAnalysis` (analytics.service.ts). -/
structure LenderAnalysis where
  name : String
  totalLoans : ℤ
  totalAmount : ℚ
  paidLoans : ℤ
  overdueLoans : ℤ
  paymentRate : ℚ
  averageAmount : ℚ
  riskLevel : RiskLevel
deriving DecidableEq, Repr

/-- The per-lender record built inside `generateLenderAnalysis`
(lines 264–293): rates guarded by `totalLoans > 0`, risk label `High`
when `overdueRate > 50 || paymentRate < 30`, else `Medium` when
`overdueRate > 20 || paymentRate < 60`, else `Low`. -/
def mkLenderAnalysis (entry : String × LenderGroupData) : LenderAnalysis :=
  let data := entry.2
  let totalLoans : ℤ := data.loans.length
  let paymentRate : ℚ :=
    if totalLoans > 0 then ((data.paidLoans : ℚ) / (totalLoans : ℚ)) * 100 else 0
  let averageAmount : ℚ :=
    if totalLoans > 0 then data.totalAmount / (totalLoans : ℚ) else 0
  let overdueRate : ℚ :=
    if totalLoans > 0 then ((data.overdueLoans : ℚ) / (totalLoans : ℚ)) * 100 else 0
  let riskLevel : RiskLevel :=
    if overdueRate > 50 ∨ paymentRate < 30 then .high
    else if overdueRate > 20 ∨ paymentRate < 60 then .medium
    else .low
  { name := entry.1
    totalLoans := totalLoans
    totalAmount := data.totalAmount
    paidLoans := data.paidLoans
    overdueLoans := data.overdueLoans
    paymentRate := paymentRate
    averageAmount := averageAmount
    riskLevel := riskLevel }

/-- The comparator `(a, b) => b.totalAmount - a.totalAmount` as an
order relation: `a` may precede `b` when its total amount is at least
`b`'s (descending order). -/
def amountGE (a b : LenderAnalysis) : Prop :=
  b.totalAmount ≤ a.totalAmount

instance : DecidableRel amountGE := fun a b =>
  inferInstanceAs (Decidable (b.totalAmount ≤ a.totalAmount))

instance : IsTotal LenderAnalysis amountGE :=
  ⟨fun a b => le_total b.totalAmount a.totalAmount⟩

instance : IsTrans LenderAnalysis amountGE :=
  ⟨fun _ _ _ hab hbc => le_trans hbc hab⟩

/-- `AnalyticsService.generateLenderAnalysis`: group by lender, build
the per-lender records, sort by total amount descending. -/
def generateLenderAnalysis (loans : List Loan) (now : ℤ) : List LenderAnalysis :=
  List.insertionSort amountGE ((groupLoansByLender loans now).map mkLenderAnalysis)

/-- The overdue rate a `LenderAnalysis` entry encodes, recomputed from
its stored counts exactly as the source computed it before discarding
it (`totalLoans > 0 ? overdueLoans/totalLoans*100 : 0`). -/
def overdueRateOf (e : LenderAnalysis) : ℚ :=
  if e.totalLoans > 0 then ((e.overdueLoans : ℚ) / (e.totalLoans : ℚ)) * 100 else 0

/-- Any record built by `mkLenderAnalysis` carries the risk label
dictated by its overdue and payment rates. -/
theorem mkLenderAnalysis_risk (entry : String × LenderGroupData) :
    ((mkLenderAnalysis entry).riskLevel = RiskLevel.high ↔
      overdueRateOf (mkLenderAnalysis entry) > 50 ∨
        (mkLenderAnalysis entry).paymentRate < 30) ∧
    ((mkLenderAnalysis entry).riskLevel = RiskLevel.medium ↔
      ¬(overdueRateOf (mkLenderAnalysis entry) > 50 ∨
          (mkLenderAnalysis entry).paymentRate < 30) ∧
        (overdueRateOf (mkLenderAnalysis entry) > 20 ∨
          (mkLenderAnalysis entry).paymentRate < 60)) ∧
    ((mkLenderAnalysis entry).riskLevel = RiskLevel.low ↔
      ¬(overdueRateOf (mkLenderAnalysis entry) > 50 ∨
          (mkLenderAnalysis entry).paymentRate < 30) ∧
        ¬(overdueRateOf (mkLenderAnalysis entry) > 20 ∨
          (mkLenderAnalysis entry).paymentRate < 60)) := by
  simp only [mkLenderAnalysis, overdueRateOf]
  split_ifs with h1 h2 <;> simp_all

/-- C6: every entry of `generateLenderAnalysis` carries the risk label
`High` exactly when `overdueRate > 50 ∨ paymentRate < 30`, `Medium`
exactly when that fails and `overdueRate > 20 ∨ paymentRate < 60`, and
`Low` exactly otherwise; and the returned list is ordered by total
amount descending. -/
theorem lenderAnalysis_spec (loans : List Loan) (now : ℤ) :
    List.Sorted amountGE (generateLenderAnalysis loans now) ∧
    ∀ e ∈ generateLenderAnalysis loans now,
      (e.riskLevel = RiskLevel.high ↔
        overdueRateOf e > 50 ∨ e.paymentRate < 30) ∧
      (e.riskLevel = RiskLevel.medium ↔
        ¬(overdueRateOf e > 50 ∨ e.paymentRate < 30) ∧
          (overdueRateOf e > 20 ∨ e.paymentRate < 60)) ∧
      (e.riskLevel = RiskLevel.low ↔
        ¬(overdueRateOf e > 50 ∨ e.paymentRate < 30) ∧
          ¬(overdueRateOf e > 20 ∨ e.paymentRate < 60)) := by
  constructor
  · exact List.sorted_insertionSort amountGE _
  · intro e he
    rw [generateLenderAnalysis, List.mem_insertionSort] at he
    obtain ⟨entry, _, rfl⟩ := List.mem_map.mp he
    exact mkLenderAnalysis_risk entry

/-- Witness for C6: a single lender with one overdue loan — its entry
appears in the computed analysis, its overdue rate is 100 so its risk
label is `High`, and the singleton output is trivially sorted. -/
theorem lenderAnalysis_spec_witness :
    List.Sorted amountGE
      (generateLenderAnalysis [⟨"1", "Acme", "p", 100, -1, none, false⟩] 0) ∧
    ((⟨"Acme", 1, 100, 0, 1, 0, 100, RiskLevel.high⟩ : LenderAnalysis).riskLevel =
        RiskLevel.high ↔
      overdueRateOf ⟨"Acme", 1, 100, 0, 1, 0, 100, RiskLevel.high⟩ > 50 ∨
        (⟨"Acme", 1, 100, 0, 1, 0, 100, RiskLevel.high⟩ : LenderAnalysis).paymentRate < 30) :=
  by
  refine ⟨(lenderAnalysis_spec [⟨"1", "Acme", "p", 100, -1, none, false⟩] 0).1,
    ((lenderAnalysis_spec [⟨"1", "Acme", "p", 100, -1, none, false⟩] 0).2
      ⟨"Acme", 1, 100, 0, 1, 0, 100, RiskLevel.high⟩ ?_).1⟩
  norm_num [generateLenderAnalysis, groupLoansByLender, addToLenderMap,
    updateGroup, mkLenderAnalysis, calculateTotalWithInterest, isOverdue,
    List.insertionSort, List.orderedInsert]

/-- `RiskFactor` (analytics.service.ts). -/
structure RiskFactor where
  name : String
  score : ℚ
  impact : String
  recommendation : String
deriving DecidableEq, Repr

/-- `RiskAssessment` (analytics.service.ts); `overallRisk` is the
`Math.round`ed score, hence an integer. -/
structure RiskAssessment where
  overallRisk : ℤ
  factors : List RiskFactor
  summary : String
deriving DecidableEq, Repr

/-- One step of the exposure `forEach` of `generateRiskAssessment`:
`current = map.get(name) || 0; map.set(name, current + total)`. -/
def addExposure (m : List (String × ℚ)) (loan : Loan) : List (String × ℚ) :=
  if m.any (fun e => e.1 == loan.lenderName) then
    m.map (fun e =>
      if e.1 == loan.lenderName then (e.1, e.2 + calculateTotalWithInterest loan) else e)
  else
    m ++ [(loan.lenderName, calculateTotalWithInterest loan)]

/-- The lender-exposure `Map` of `generateRiskAssessment`. -/
def lenderExposures (loans : List Loan) : List (String × ℚ) :=
  loans.foldl addExposure []

/-- `Math.max(...values)`: `none` stands for the `-Infinity` the spread
produces on an empty list (the source only consumes the value behind a
`totalDebt > 0` guard, where the list is provably nonempty). -/
def jsMaxList : List ℚ → Option ℚ
  | [] => none
  | x :: xs =>
    some (match jsMaxList xs with
      | none => x
      | some m => max x m)

/-- Factor 1 rate: `loans.length > 0 ? overdue/total*100 : 0`. -/
def overdueRateOfLoans (loans : List Loan) (now : ℤ) : ℚ :=
  if loans.length > 0 then
    (((loans.filter fun loan => isOverdue loan now).length : ℚ) / (loans.length : ℚ)) * 100
  else 0

/-- Factor 1 score: `Math.min(overdueRate * 2, 100)`. -/
def overdueScore (loans : List Loan) (now : ℤ) : ℚ :=
  min (overdueRateOfLoans loans now * 2) 100

/-- Total debt, the `reduce` over `calculateTotalWithInterest`. -/
def totalDebtOfLoans (loans : List Loan) : ℚ :=
  loans.foldl (fun sum loan => sum + calculateTotalWithInterest loan) 0

/-- Factor 2 rate: largest lender exposure over total debt, `0` when
the total debt is not positive. -/
def concentrationRate (loans : List Loan) : ℚ :=
  if totalDebtOfLoans loans > 0 then
    ((jsMaxList ((lenderExposures loans).map Prod.snd)).getD 0 /
        totalDebtOfLoans loans) * 100
  else 0

/-- Factor 2 score: 80 / 50 / 20 at `>50` / `>30` / otherwise. -/
def concentrationScore (loans : List Loan) : ℚ :=
  if concentrationRate loans > 50 then 80
  else if concentrationRate loans > 30 then 50
  else 20

/-- The `interestRate && interestRate > 0` filter (JS truthiness makes
this simply `rate > 0` for a present rate). -/
def hasInterest (loan : Loan) : Bool :=
  match loan.interestRate with
  | some r => decide (0 < r)
  | none => false

/-- Factor 3 rate: percentage of loans with no (positive) interest. -/
def noInterestRate (loans : List Loan) : ℚ :=
  if loans.length > 0 then
    (((loans.length : ℚ) - ((loans.filter hasInterest).length : ℚ)) /
        (loans.length : ℚ)) * 100
  else 0

/-- Factor 3 score: 60 / 30 / 10 at `>70` / `>40` / otherwise. -/
def interestRiskScore (loans : List Loan) : ℚ :=
  if noInterestRate loans > 70 then 60
  else if noInterestRate loans > 40 then 30
  else 10

/-- Factor 4 rate: paid loans over total loans, `0` on an empty list. -/
def paymentRateOfLoans (loans : List Loan) : ℚ :=
  if loans.length > 0 then
    (((loans.filter fun loan => loan.isPaid).length : ℚ) / (loans.length : ℚ)) * 100
  else 0

/-- Factor 4 score: 70 / 40 / 20 at `<50` / `<70` / otherwise. -/
def velocityScore (loans : List Loan) : ℚ :=
  if paymentRateOfLoans loans < 50 then 70
  else if paymentRateOfLoans loans < 70 then 40
  else 20

/-- Factor 5 score: 40 / 20 / 10 at `<5` / `<10` / otherwise loans. -/
def sizeScore (loans : List Loan) : ℚ :=
  if loans.length < 5 then 40
  else if loans.length < 10 then 20
  else 10

/-- `AnalyticsService.generateRiskAssessment` (lines 449–611): the five
factor records, the weighted reduce with weights
`[0.3, 0.25, 0.15, 0.2, 0.1]`, the banded summary on the (unrounded)
weighted sum and the `Math.round`ed overall risk. -/
def generateRiskAssessment (loans : List Loan) (now : ℤ) : RiskAssessment :=
  let factors : List RiskFactor :=
    [{ name := "Overdue Rate"
       score := overdueScore loans now
       impact :=
         if overdueRateOfLoans loans now > 30 then "High"
         else if overdueRateOfLoans loans now > 15 then "Medium"
         else "Low"
       recommendation :=
         if overdueRateOfLoans loans now > 30 then
           "Immediate action required - contact overdue borrowers"
         else if overdueRateOfLoans loans now > 15 then
           "Monitor closely and follow up on overdue loans"
         else "Maintain current collection practices" },
     { name := "Concentration Risk"
       score := concentrationScore loans
       impact :=
         if concentrationRate loans > 50 then "High"
         else if concentrationRate loans > 30 then "Medium"
         else "Low"
       recommendation :=
         if concentrationRate loans > 50 then
           "Diversify lending portfolio to reduce single-lender dependency"
         else if concentrationRate loans > 30 then
           "Consider diversifying to reduce concentration risk"
         else "Good diversification across lenders" },
     { name := "Interest Rate Risk"
       score := interestRiskScore loans
       impact :=
         if noInterestRate loans > 70 then "Medium"
         else if noInterestRate loans > 40 then "Low"
         else "Very Low"
       recommendation :=
         if noInterestRate loans > 70 then
           "Consider implementing interest rates to improve returns"
         else if noInterestRate loans > 40 then
           "Review interest rate strategy for better profitability"
         else "Good balance of interest-bearing loans" },
     { name := "Payment Velocity"
       score := velocityScore loans
       impact :=
         if paymentRateOfLoans loans < 50 then "High"
         else if paymentRateOfLoans loans < 70 then "Medium"
         else "Low"
       recommendation :=
         if paymentRateOfLoans loans < 50 then
           "Improve collection processes and borrower communication"
         else if paymentRateOfLoans loans < 70 then
           "Enhance payment reminders and follow-up procedures"
         else "Excellent payment collection rate" },
     { name := "Portfolio Size"
       score := sizeScore loans
       impact :=
         if loans.length < 5 then "Medium"
         else if loans.length < 10 then "Low"
         else "Very Low"
       recommendation :=
         if loans.length < 5 then
           "Consider expanding portfolio for better risk distribution"
         else if loans.length < 10 then
           "Good portfolio size, continue steady growth"
         else "Well-diversified portfolio size" }]
  let weights : List ℚ := [0.3, 0.25, 0.15, 0.2, 0.1]
  let totalRiskScore : ℚ :=
    (factors.zip weights).foldl (fun sum p => sum + p.1.score * p.2) 0
  let summary : String :=
    if totalRiskScore ≥ 70 then
      "High risk portfolio requiring immediate attention. Focus on overdue collections and risk mitigation strategies."
    else if totalRiskScore ≥ 40 then
      "Moderate risk portfolio. Monitor key metrics closely and implement preventive measures."
    else
      "Low risk portfolio with good fundamentals. Maintain current practices and continue monitoring."
  { overallRisk := round totalRiskScore
    factors := factors
    summary := summary }

/-- The overall risk formula as the spec words it: the weighted sum of
the five factor scores with weights 0.30, 0.25, 0.15, 0.20, 0.10. -/
def specRiskScore (loans : List Loan) (now : ℤ) : ℚ :=
  0.30 * overdueScore loans now + 0.25 * concentrationScore loans
    + 0.15 * interestRiskScore loans + 0.20 * velocityScore loans
    + 0.10 * sizeScore loans

/-- A four-loan portfolio (four distinct lenders, equal amounts, three
loans with interest, one overdue, none paid) whose weighted risk sum is
exactly 39.5: the reported `overallRisk` rounds up to 40 while the
summary is still the low-risk band. -/
def bandLoans : List Loan :=
  [⟨"1", "A", "p", 100, -1, some 10, false⟩,
   ⟨"2", "B", "p", 100, 1, some 10, false⟩,
   ⟨"3", "C", "p", 100, 1, some 10, false⟩,
   ⟨"4", "D", "p", 100, 1, none, false⟩]

/-- C7 counterexample: on `bandLoans` (at `now = 0`) the returned risk
score is 40, yet the summary is the *Low* band — the claim's reading
"Moderate at score ≥ 40" fails, because the source bands on the
unrounded weighted sum 39.5 and only the rounded score reaches 40. -/
theorem riskAssessment_band_ctrex :
    (generateRiskAssessment bandLoans 0).overallRisk = 40 ∧
    (generateRiskAssessment bandLoans 0).summary =
      "Low risk portfolio with good fundamentals. Maintain current practices and continue monitoring." := by
  norm_num [generateRiskAssessment, bandLoans, overdueScore, overdueRateOfLoans,
    concentrationScore, concentrationRate, totalDebtOfLoans, lenderExposures,
    addExposure, jsMaxList, interestRiskScore, noInterestRate, hasInterest,
    velocityScore, paymentRateOfLoans, sizeScore, calculateTotalWithInterest,
    isOverdue, List.filter, List.foldl, round_eq]

/-- C7 (amended): `generateRiskAssessment` returns as `overallRisk` the
weighted sum of the five factor scores (weights 0.30, 0.25, 0.15, 0.20,
0.10) rounded to the nearest integer, and the summary band is chosen by
thresholds 70 and 40 applied to the *unrounded* weighted sum. -/
theorem riskAssessment_formula (loans : List Loan) (now : ℤ) :
    (generateRiskAssessment loans now).overallRisk = round (specRiskScore loans now) ∧
    ((generateRiskAssessment loans now).summary =
        "High risk portfolio requiring immediate attention. Focus on overdue collections and risk mitigation strategies." ↔
      70 ≤ specRiskScore loans now) ∧
    ((generateRiskAssessment loans now).summary =
        "Moderate risk portfolio. Monitor key metrics closely and implement preventive measures." ↔
      40 ≤ specRiskScore loans now ∧ specRiskScore loans now < 70) ∧
    ((generateRiskAssessment loans now).summary =
        "Low risk portfolio with good fundamentals. Maintain current practices and continue monitoring." ↔
      specRiskScore loans now < 40) := by
  simp only [generateRiskAssessment, List.zip_cons_cons, List.zip_nil_right,
    List.foldl_cons, List.foldl_nil]
  have h : 0 + overdueScore loans now * 0.3 + concentrationScore loans * 0.25 +
      interestRiskScore loans * 0.15 + velocityScore loans * 0.2 +
      sizeScore loans * 0.1 = specRiskScore loans now := by
    rw [specRiskScore]; ring
  rw [h]
  refine ⟨rfl, ?_, ?_, ?_⟩ <;>
    · split_ifs with h1 h2 <;> simp_all <;> linarith

/-- C8: on the empty portfolio the risk assessment is fully defined —
the factor scores are [0, 20, 10, 70, 40] (five factors, Portfolio Size
scoring 40 at count < 5) and the overall risk is the integer 25
(= round 24.5); the `-Infinity` of `Math.max()` over the empty exposure
list never reaches the result because the concentration rate is guarded
by `totalDebt > 0`. -/
theorem riskAssessment_empty (now : ℤ) :
    (generateRiskAssessment [] now).factors.map (fun f => f.score) =
      [0, 20, 10, 70, 40] ∧
    (generateRiskAssessment [] now).factors.length = 5 ∧
    (generateRiskAssessment [] now).overallRisk = 25 := by
  norm_num [generateRiskAssessment, overdueScore, overdueRateOfLoans,
    concentrationScore, concentrationRate, totalDebtOfLoans, lenderExposures,
    addExposure, jsMaxList, interestRiskScore, noInterestRate, hasInterest,
    velocityScore, paymentRateOfLoans, sizeScore, List.filter, List.foldl, round_eq]

/-- `isValidDate` (date.utils.ts): `!isNaN(new Date(s).getTime()) &&
date > new Date()`. The JS `Date` parser is platform code, so it is
abstracted as a `parse` function returning `none` exactly when
`getTime()` is NaN; `now` is the wall clock read by `new Date()`. -/
def isValidDate (parse : String → Option ℤ) (now : ℤ) (dateString : String) : Bool :=
  match parse dateString with
  | none => false
  | some t => decide (now < t)

/-- C9: `isValidDate` accepts exactly the strings that parse to a date
strictly after `now` — in particular any parseable date with timestamp
at or before `now` (a past date, or today's already-begun date) is
rejected, not only unparseable input. -/
theorem isValidDate_spec (parse : String → Option ℤ) (now : ℤ) (s : String) :
    (isValidDate parse now s = true ↔ ∃ t, parse s = some t ∧ now < t) ∧
    (∀ t, parse s = some t → t ≤ now → isValidDate parse now s = false) := by
  constructor
  · constructor
    · intro h
      rw [isValidDate] at h
      cases hp : parse s with
      | none => rw [hp] at h; exact absurd h (by simp)
      | some t => rw [hp] at h; exact ⟨t, rfl, by simpa using h⟩
    · rintro ⟨t, hp, ht⟩
      simp [isValidDate, hp, ht]
  · intro t hp ht
    simp [isValidDate, hp, not_lt.mpr ht]

/-- A sample parse table for the witness: one parseable string with
timestamp 5, everything else unparseable. -/
def sampleParse (s : String) : Option ℤ :=
  if s = "2026-01-01" then some 5 else none

/-- Witness for C9: with `now = 3` the parseable future date is
accepted; with `now = 9` the same date lies in the past and is
rejected. -/
theorem isValidDate_spec_witness :
    isValidDate sampleParse 3 "2026-01-01" = true ∧
    isValidDate sampleParse 9 "2026-01-01" = false :=
  ⟨(isValidDate_spec sampleParse 3 "2026-01-01").1.mpr ⟨5, rfl, by norm_num⟩,
   (isValidDate_spec sampleParse 9 "2026-01-01").2 5 rfl (by norm_num)⟩

/-- The `'up' | 'down' | 'stable'` trend classification. -/
inductive Trend where
  | up
  | down
  | stable
deriving DecidableEq, Repr

/-- `PaymentTrend` (analytics.service.ts). -/
structure PaymentTrend where
  period : String
  payments : ℤ
  amount : ℚ
  trend : Trend
  changePercentage : ℚ
deriving DecidableEq, Repr

/-- The five period labels of `generatePaymentTrends`. -/
def periodNames : List String :=
  ["Last 7 days", "Last 30 days", "Last 90 days", "Last 6 months", "Last year"]

/-- The five trailing windows (`dayRanges = [7, 30, 90, 180, 365]`). -/
def dayRanges : List ℤ := [7, 30, 90, 180, 365]

/-- The period filter of `generatePaymentTrends`:
`new Date(loan.repaymentDate) >= cutoffDate && loan.isPaid`. -/
def paidLoansWithin (loans : List Loan) (cutoff : ℤ) : List Loan :=
  loans.filter fun loan => decide (cutoff ≤ loan.repaymentDate) && loan.isPaid

/-- The period's aggregate paid amount (the `reduce` over
`calculateTotalWithInterest`). -/
def paidAmountWithin (loans : List Loan) (cutoff : ℤ) : ℚ :=
  (paidLoansWithin loans cutoff).foldl
    (fun sum loan => sum + calculateTotalWithInterest loan) 0

/-- The `changePercentage` variable of loop iteration `i`: percent
change of this window's paid amount versus the previous (shorter)
window's, left at 0 for the first period and when the previous amount
is not positive. -/
def rawChangeAt (loans : List Loan) (now : ℤ) (i : Nat) : ℚ :=
  if i > 0 then
    if paidAmountWithin loans (now - dayRanges.getD (i - 1) 0) > 0 then
      ((paidAmountWithin loans (now - dayRanges.getD i 0) -
            paidAmountWithin loans (now - dayRanges.getD (i - 1) 0)) /
          paidAmountWithin loans (now - dayRanges.getD (i - 1) 0)) * 100
    else 0
  else 0

/-- The `trend` variable of loop iteration `i`: `up` above +5%, `down`
below −5%, else `stable`; `stable` for the first period and when the
previous amount is not positive. -/
def trendDirAt (loans : List Loan) (now : ℤ) (i : Nat) : Trend :=
  if i > 0 ∧ paidAmountWithin loans (now - dayRanges.getD (i - 1) 0) > 0 then
    if rawChangeAt loans now i > 5 then .up
    else if rawChangeAt loans now i < -5 then .down
    else .stable
  else .stable

/-- Loop iteration `i` of `generatePaymentTrends` (lines 383–436); the
stored change percentage is `Math.abs(changePercentage)`. -/
def trendAt (loans : List Loan) (now : ℤ) (i : Nat) : PaymentTrend :=
  { period := periodNames.getD i ""
    payments := (paidLoansWithin loans (now - dayRanges.getD i 0)).length
    amount := paidAmountWithin loans (now - dayRanges.getD i 0)
    trend := trendDirAt loans now i
    changePercentage := |rawChangeAt loans now i| }

/-- `AnalyticsService.generatePaymentTrends`: the five loop
iterations in order. -/
def generatePaymentTrends (loans : List Loan) (now : ℤ) : List PaymentTrend :=
  (List.range 5).map (trendAt loans now)

/-- A loan with non-negative amount and non-negative (or absent)
interest rate has a non-negative total. -/
theorem calculateTotalWithInterest_nonneg (loan : Loan)
    (ha : 0 ≤ loan.amount) (hr : ∀ r, loan.interestRate = some r → 0 ≤ r) :
    0 ≤ calculateTotalWithInterest loan := by
  cases h : loan.interestRate with
  | none => simpa [calculateTotalWithInterest, h] using ha
  | some r =>
    have hr0 := hr r h
    have hmul : 0 ≤ loan.amount * r / 100 :=
      div_nonneg (mul_nonneg ha hr0) (by norm_num)
    simp only [calculateTotalWithInterest, h]
    split_ifs
    · linarith
    · exact ha

/-- A fold that accumulates sums equals the starting value plus the
mapped sum. -/
theorem foldl_add_totals (l : List Loan) (a : ℚ) :
    l.foldl (fun sum loan => sum + calculateTotalWithInterest loan) a =
      a + (l.map calculateTotalWithInterest).sum := by
  induction l generalizing a with
  | nil => simp
  | cons x xs ih => simp [ih]; ring

/-- Widening the trailing window (moving the cutoff earlier) can only
grow the aggregate paid amount, as long as every loan's total is
non-negative: the windows have no upper bound on `repaymentDate`, so a
lower cutoff admits a superset of the loans. -/
theorem paidAmountWithin_mono (loans : List Loan)
    (htot : ∀ loan ∈ loans, 0 ≤ calculateTotalWithInterest loan)
    {c c' : ℤ} (hcc : c' ≤ c) :
    paidAmountWithin loans c ≤ paidAmountWithin loans c' := by
  rw [paidAmountWithin, paidAmountWithin, foldl_add_totals, foldl_add_totals,
    zero_add, zero_add]
  induction loans with
  | nil => simp [paidLoansWithin]
  | cons x xs ih =>
    have hx := htot x (List.mem_cons_self x xs)
    have ihx := ih fun loan hl => htot loan (List.mem_cons_of_mem x hl)
    rw [paidLoansWithin, paidLoansWithin, List.filter_cons, List.filter_cons]
    rw [paidLoansWithin, paidLoansWithin] at ihx
    cases hp : x.isPaid with
    | false =>
      simp [hp]
      exact ihx
    | true =>
      by_cases h1 : c ≤ x.repaymentDate
      · have h2 : c' ≤ x.repaymentDate := le_trans hcc h1
        simp [hp, h1, h2]
        linarith
      · by_cases h2 : c' ≤ x.repaymentDate
        · simp [hp, h1, h2]
          linarith
        · simp [hp, h1, h2]
          exact ihx

/-- Under the non-negativity hypotheses the raw change of any period is
non-negative: the current (longer) window dominates the previous one. -/
theorem rawChangeAt_nonneg (loans : List Loan) (now : ℤ)
    (htot : ∀ loan ∈ loans, 0 ≤ calculateTotalWithInterest loan) (i : Nat)
    (hd : dayRanges.getD (i - 1) 0 ≤ dayRanges.getD i 0) :
    0 ≤ rawChangeAt loans now i := by
  rw [rawChangeAt]
  split_ifs with h1 h2
  · have hmono : paidAmountWithin loans (now - dayRanges.getD (i - 1) 0) ≤
        paidAmountWithin loans (now - dayRanges.getD i 0) :=
      paidAmountWithin_mono loans htot (by omega)
    have := div_nonneg (sub_nonneg.mpr hmono) (le_of_lt h2)
    positivity
  · exact le_refl 0
  · exact le_refl 0

/-- The trend label of any period is never `down` when totals are
non-negative and the windows are nested. -/
theorem trendDirAt_ne_down (loans : List Loan) (now : ℤ)
    (htot : ∀ loan ∈ loans, 0 ≤ calculateTotalWithInterest loan) (i : Nat)
    (hd : dayRanges.getD (i - 1) 0 ≤ dayRanges.getD i 0) :
    trendDirAt loans now i ≠ Trend.down := by
  rw [trendDirAt]
  split_ifs with h1 h2 h3
  · simp
  · exfalso
    have := rawChangeAt_nonneg loans now htot i hd
    linarith
  · simp
  · simp

/-- C10: for every collection of loans with non-negative amounts and
interest rates, `generatePaymentTrends` returns exactly 5 periods, no
period is classified `down`, every reported `changePercentage` is
non-negative, and each period's paid amount dominates the previous
(shorter) period's. -/
theorem paymentTrends_spec (loans : List Loan) (now : ℤ)
    (h : ∀ loan ∈ loans, 0 ≤ loan.amount ∧
      ∀ r, loan.interestRate = some r → 0 ≤ r) :
    (generatePaymentTrends loans now).length = 5 ∧
    (∀ t ∈ generatePaymentTrends loans now,
      t.trend ≠ Trend.down ∧ 0 ≤ t.changePercentage) ∧
    (∀ i : Nat, i + 1 < 5 →
      (trendAt loans now i).amount ≤ (trendAt loans now (i + 1)).amount) := by
  have htot : ∀ loan ∈ loans, 0 ≤ calculateTotalWithInterest loan := fun loan hl =>
    calculateTotalWithInterest_nonneg loan (h loan hl).1 (h loan hl).2
  refine ⟨by simp [generatePaymentTrends], ?_, ?_⟩
  · intro t ht
    rw [generatePaymentTrends] at ht
    obtain ⟨i, hi, rfl⟩ := List.mem_map.mp ht
    rw [List.mem_range] at hi
    have hd : dayRanges.getD (i - 1) 0 ≤ dayRanges.getD i 0 := by
      interval_cases i <;> decide
    exact ⟨trendDirAt_ne_down loans now htot i hd, abs_nonneg _⟩
  · intro i hi
    have hi' : i < 4 := by omega
    have hd : dayRanges.getD i 0 ≤ dayRanges.getD (i + 1) 0 := by
      interval_cases i <;> decide
    exact paidAmountWithin_mono loans htot (by omega)

/-- The single paid loan used to witness C10. -/
def demoTrendLoans : List Loan := [⟨"1", "A", "p", 100, -1, none, true⟩]

/-- Witness for C10 at a one-loan portfolio: 5 periods, the second
period is not `down`, its change percentage is non-negative, and the
7-day window's amount is dominated by the 30-day window's. -/
theorem paymentTrends_spec_witness :
    (generatePaymentTrends demoTrendLoans 0).length = 5 ∧
    ((trendAt demoTrendLoans 0 1).trend ≠ Trend.down ∧
      0 ≤ (trendAt demoTrendLoans 0 1).changePercentage) ∧
    (trendAt demoTrendLoans 0 0).amount ≤ (trendAt demoTrendLoans 0 1).amount := by
  have hh : ∀ loan ∈ demoTrendLoans, 0 ≤ loan.amount ∧
      ∀ r, loan.interestRate = some r → 0 ≤ r := by
    intro loan hl
    rw [demoTrendLoans, List.mem_singleton] at hl
    subst hl
    exact ⟨by norm_num, fun r hr => Option.noConfusion hr⟩
  refine ⟨(paymentTrends_spec demoTrendLoans 0 hh).1,
    (paymentTrends_spec demoTrendLoans 0 hh).2.1 _ ?_,
    (paymentTrends_spec demoTrendLoans 0 hh).2.2 0 (by norm_num)⟩
  rw [generatePaymentTrends]
  exact List.mem_map.mpr ⟨1, List.mem_range.mpr (by norm_num), rfl⟩

end LoanTrack
